import Mathlib

/-!
Verification of the CCCI-Member-Backend Express proxy server.

Shallow embedding of the route handlers of the main server file
(src/unnamed/part_000).  Each Express route handler is split into two pure
functions:

- a phase-1 function, from the extracted request parameters to either an
  early response (validation failure, no outbound call) or the outbound
  request that the handler performs with fetch;
- a phase-2 function, from the outcome of the outbound fetch (a transport
  failure caught by the catch block, or a response object) to the inbound
  HTTP response the handler sends.

String operations mirror JavaScript semantics: String.prototype.replace
with a string pattern replaces the first occurrence only and performs
dollar substitution on the replacement string (ECMA-262 GetSubstitution);
String.prototype.includes is a substring test.
-/

namespace Proxy

/-- The backquote character, written by code to avoid the literal symbol. -/
def backquote : Char := Char.ofNat 96

/-- Split a list at the first occurrence of a pattern: returns the part
before the match and the part after it, or none when the pattern does not
occur.  Mirrors the search performed by String.prototype.replace and
String.prototype.includes. -/
def findSplit : List Char → List Char → Option (List Char × List Char)
  | [], pat => if pat.isPrefixOf ([] : List Char) then some ([], []) else none
  | c :: rest, pat =>
    if pat.isPrefixOf (c :: rest) then some ([], (c :: rest).drop pat.length)
    else
      match findSplit rest pat with
      | some (pre, post) => some (c :: pre, post)
      | none => none

/-- ECMA-262 GetSubstitution for a string search pattern: in the
replacement string, a dollar sign followed by a dollar sign yields one
dollar sign, followed by an ampersand yields the matched pattern, followed
by a backquote yields the text before the match, followed by an apostrophe
yields the text after the match; any other dollar form is literal. -/
def getSubst (pre pat post : List Char) : List Char → List Char
  | [] => []
  | c :: rest =>
    if c = '$' then
      match rest with
      | [] => ['$']
      | d :: rest2 =>
        if d = '$' then '$' :: getSubst pre pat post rest2
        else if d = '&' then pat ++ getSubst pre pat post rest2
        else if d = backquote then pre ++ getSubst pre pat post rest2
        else if d = '\'' then post ++ getSubst pre pat post rest2
        else '$' :: d :: getSubst pre pat post rest2
    else c :: getSubst pre pat post rest

/-- JavaScript String.prototype.replace with string pattern and string
replacement, on character lists: replace the first occurrence of pat,
applying dollar substitution to the replacement. -/
def jsReplaceL (s pat repl : List Char) : List Char :=
  match findSplit s pat with
  | none => s
  | some (pre, post) => pre ++ getSubst pre pat post repl ++ post

/-- Plain first-occurrence literal replacement (the transform the spec
describes): the replacement string is inserted verbatim. -/
def literalReplaceFirstL (s pat repl : List Char) : List Char :=
  match findSplit s pat with
  | none => s
  | some (pre, post) => pre ++ repl ++ post

/-- Remove the first occurrence of a pattern. -/
def removeFirstL (s pat : List Char) : List Char :=
  match findSplit s pat with
  | none => s
  | some (pre, post) => pre ++ post

/-- JavaScript s.replace(pat, repl) for string arguments. -/
def jsReplace (s pat repl : String) : String :=
  String.mk (jsReplaceL s.data pat.data repl.data)

/-- First-occurrence literal replacement on strings, following the words
of the specification of the URL templating algorithm. -/
def literalReplaceFirst (s pat repl : String) : String :=
  String.mk (literalReplaceFirstL s.data pat.data repl.data)

/-- Removal of the first occurrence of a pattern, on strings. -/
def jsRemoveFirst (s pat : String) : String :=
  String.mk (removeFirstL s.data pat.data)

/-- JavaScript s.includes(pat). -/
def jsIncludes (s pat : String) : Bool :=
  (findSplit s.data pat.data).isSome

/-- URL used by the GET, PUT and DELETE payment handlers
(src/unnamed/part_000 lines 107, 207, 254):
API_PAYMENT.replace(two-brace id token, id). -/
def paymentUrl (tmpl i : String) : String :=
  jsReplace tmpl "{id}" i

/-- URL used by the POST payment handler (src/unnamed/part_000 lines
150-152): if the template includes the id token, drop the token with its
preceding slash, else use the template unchanged. -/
def createEndpoint (tmpl : String) : String :=
  if jsIncludes tmpl "{id}" then jsReplace tmpl "/{id}" "" else tmpl

/-- JSON values, for request and response bodies. -/
inductive Json where
  | null : Json
  | bool : Bool → Json
  | num : Int → Json
  | str : String → Json
  | arr : List Json → Json
  | obj : List (String × Json) → Json

/-- JavaScript truthiness of a JSON value: null, zero and the empty
string are falsy; every object and array is truthy. -/
def Json.truthy : Json → Bool
  | Json.null => false
  | Json.bool b => b
  | Json.num n => !(n == 0)
  | Json.str s => !(s == "")
  | Json.arr _ => true
  | Json.obj _ => true

/-- Lookup of a key in a JSON object field list (first match). -/
def lookupField : List (String × Json) → String → Option Json
  | [], _ => none
  | (k, v) :: rest, key => if k = key then some v else lookupField rest key

/-- Field access on a JSON value: some value when the value is an object
carrying the key, none otherwise. -/
def Json.getField (j : Json) (key : String) : Option Json :=
  match j with
  | Json.obj fs => lookupField fs key
  | _ => none

/-- Escaping of one character inside a JSON string literal. -/
def escapeChar (c : Char) : String :=
  if c = '"' then "\\\"" else if c = '\\' then "\\\\" else String.singleton c

/-- Escaping of a string for JSON serialization. -/
def escapeString (s : String) : String :=
  String.join (s.data.map escapeChar)

mutual

/-- JSON.stringify, as used on the request payload before the outbound
POST and PUT calls. -/
def Json.stringify : Json → String
  | Json.null => "null"
  | Json.bool true => "true"
  | Json.bool false => "false"
  | Json.num n => toString n
  | Json.str s => "\"" ++ escapeString s ++ "\""
  | Json.arr xs => "[" ++ stringifyArray xs ++ "]"
  | Json.obj fs => "\x7b" ++ stringifyFields fs ++ "\x7d"

/-- Comma-separated serialization of a JSON array body. -/
def stringifyArray : List Json → String
  | [] => ""
  | [x] => Json.stringify x
  | x :: y :: rest => Json.stringify x ++ "," ++ stringifyArray (y :: rest)

/-- Comma-separated serialization of JSON object fields. -/
def stringifyFields : List (String × Json) → String
  | [] => ""
  | [(k, v)] => "\"" ++ escapeString k ++ "\":" ++ Json.stringify v
  | (k, v) :: p :: rest =>
    "\"" ++ escapeString k ++ "\":" ++ Json.stringify v ++ "," ++ stringifyFields (p :: rest)

end

/-- An outbound fetch request: target URL, HTTP method, header list, and
optional body string. -/
structure OutboundRequest where
  url : String
  method : String
  headers : List (String × String)
  body : Option String

/-- An inbound HTTP response produced by a handler: status code and JSON
body (res.json defaults the status to 200 unless res.status was called). -/
structure HttpResponse where
  status : Nat
  body : Json

/-- First phase of a handler: either an early response (no outbound call
is performed) or the outbound request passed to fetch. -/
inductive Step where
  | respond : HttpResponse → Step
  | call : OutboundRequest → Step

/-- A fetch Response object, as consumed by the handlers: status,
statusText, the body read as text (response.text) and the result of
parsing the body as JSON (response.json), which throws the recorded
message on invalid JSON. -/
structure FetchResponse where
  status : Nat
  statusText : String
  bodyText : String
  jsonResult : Except String Json

/-- node-fetch response.ok: status in the range 200 to 299. -/
def FetchResponse.ok (r : FetchResponse) : Bool :=
  decide (200 ≤ r.status ∧ r.status < 300)

/-- Outcome of an awaited fetch call: a transport error (the exception
caught by the catch block) or a response object. -/
inductive FetchOutcome where
  | failure : String → FetchOutcome
  | response : FetchResponse → FetchOutcome

/-- Header list sent by the five data and payment handlers: bearer
authorization and JSON content type (src/unnamed/part_000 lines 68-71,
111-114, 159-162, 213-216, 259-262). -/
def authCT (tok : String) : List (String × String) :=
  [("Authorization", "Bearer " ++ tok), ("Content-Type", "application/json")]

/-- Body of every catch branch of the data and payment handlers:
status 500 with error and message fields. -/
def internalError (m : String) : Json :=
  Json.obj [("error", Json.str "Internal server error"), ("message", Json.str m)]

/-- Body of the 400 response for a missing payment id. -/
def idRequired : Json :=
  Json.obj [("error", Json.str "Payment ID is required")]

/-- Body of the 400 response for missing payment data. -/
def dataRequired : Json :=
  Json.obj [("error", Json.str "Payment data is required")]

/-- Non-ok branch body of the two plain read handlers: error, status and
statusText fields, no details. -/
def upstreamErrorBody (msg : String) (r : FetchResponse) : Json :=
  Json.obj [("error", Json.str msg), ("status", Json.num r.status),
    ("statusText", Json.str r.statusText)]

/-- Non-ok branch body of the three write handlers: error, status,
statusText, and details carrying the upstream body read as text. -/
def upstreamErrorBodyDetails (msg : String) (r : FetchResponse) : Json :=
  Json.obj [("error", Json.str msg), ("status", Json.num r.status),
    ("statusText", Json.str r.statusText), ("details", Json.str r.bodyText)]

/-- GET /api/show/data, request phase (src/unnamed/part_000 lines 63-72):
always fetches API_URL with authorization and content-type headers and no
body. -/
def showDataPhase1 (apiUrl tok : String) : Step :=
  Step.call ⟨apiUrl, "GET", authCT tok, none⟩

/-- GET /api/show/data, response phase (lines 74-92): non-ok status is
relayed with error, status, statusText; ok status parses the body as JSON
and relays it with res.json (status 200); a thrown error yields 500. -/
def showDataPhase2 : FetchOutcome → HttpResponse
  | FetchOutcome.failure m => ⟨500, internalError m⟩
  | FetchOutcome.response r =>
    if r.ok then
      match r.jsonResult with
      | Except.ok d => ⟨200, d⟩
      | Except.error m => ⟨500, internalError m⟩
    else ⟨r.status, upstreamErrorBody "Failed to fetch external API" r⟩

/-- GET /api/show/data/payment/:id, request phase (lines 96-115): a falsy
id yields 400, else fetch the payment URL with the id substituted. -/
def showPaymentPhase1 (tmpl tok : String) (id : Option String) : Step :=
  match id with
  | none => Step.respond ⟨400, idRequired⟩
  | some i =>
    if i = "" then Step.respond ⟨400, idRequired⟩
    else Step.call ⟨paymentUrl tmpl i, "GET", authCT tok, none⟩

/-- GET /api/show/data/payment/:id, response phase (lines 117-135). -/
def showPaymentPhase2 : FetchOutcome → HttpResponse
  | FetchOutcome.failure m => ⟨500, internalError m⟩
  | FetchOutcome.response r =>
    if r.ok then
      match r.jsonResult with
      | Except.ok d => ⟨200, d⟩
      | Except.error m => ⟨500, internalError m⟩
    else ⟨r.status, upstreamErrorBody "Failed to fetch payment data" r⟩

/-- POST /api/payment, request phase (lines 139-164): a falsy req.body
yields 400, else POST the serialized payload to the create endpoint. -/
def createPhase1 (tmpl tok : String) (body : Option Json) : Step :=
  match body with
  | none => Step.respond ⟨400, dataRequired⟩
  | some j =>
    if j.truthy then
      Step.call ⟨createEndpoint tmpl, "POST", authCT tok, some (Json.stringify j)⟩
    else Step.respond ⟨400, dataRequired⟩

/-- POST /api/payment, response phase (lines 166-186): non-ok status is
relayed with details read as text; ok status parses the body and responds
201; a thrown error yields 500. -/
def createPhase2 : FetchOutcome → HttpResponse
  | FetchOutcome.failure m => ⟨500, internalError m⟩
  | FetchOutcome.response r =>
    if r.ok then
      match r.jsonResult with
      | Except.ok d => ⟨201, d⟩
      | Except.error m => ⟨500, internalError m⟩
    else ⟨r.status, upstreamErrorBodyDetails "Failed to create payment" r⟩

/-- PUT /api/payment/:id, request phase (lines 190-218): falsy id then
falsy body yield 400, else PUT the serialized payload to the payment
URL. -/
def updatePhase1 (tmpl tok : String) (id : Option String) (body : Option Json) : Step :=
  match id with
  | none => Step.respond ⟨400, idRequired⟩
  | some i =>
    if i = "" then Step.respond ⟨400, idRequired⟩
    else
      match body with
      | none => Step.respond ⟨400, dataRequired⟩
      | some j =>
        if j.truthy then
          Step.call ⟨paymentUrl tmpl i, "PUT", authCT tok, some (Json.stringify j)⟩
        else Step.respond ⟨400, dataRequired⟩

/-- PUT /api/payment/:id, response phase (lines 220-239). -/
def updatePhase2 : FetchOutcome → HttpResponse
  | FetchOutcome.failure m => ⟨500, internalError m⟩
  | FetchOutcome.response r =>
    if r.ok then
      match r.jsonResult with
      | Except.ok d => ⟨200, d⟩
      | Except.error m => ⟨500, internalError m⟩
    else ⟨r.status, upstreamErrorBodyDetails "Failed to update payment" r⟩

/-- DELETE /api/payment/:id, request phase (lines 244-263): a falsy id
yields 400, else DELETE the payment URL with no body. -/
def deletePhase1 (tmpl tok : String) (id : Option String) : Step :=
  match id with
  | none => Step.respond ⟨400, idRequired⟩
  | some i =>
    if i = "" then Step.respond ⟨400, idRequired⟩
    else Step.call ⟨paymentUrl tmpl i, "DELETE", authCT tok, none⟩

/-- DELETE /api/payment/:id, response phase (lines 265-287): non-ok is
relayed with details; ok responds 200 with a synthesized message and the
id, never reading the upstream body. -/
def deletePhase2 (i : String) : FetchOutcome → HttpResponse
  | FetchOutcome.failure m => ⟨500, internalError m⟩
  | FetchOutcome.response r =>
    if r.ok then
      ⟨200, Json.obj [("message", Json.str "Payment deleted successfully"),
        ("id", Json.str i)]⟩
    else ⟨r.status, upstreamErrorBodyDetails "Failed to delete payment" r⟩

/-- GET /api/test-connection, request phase (lines 291-295): always
fetches API_URL with only the authorization header and no body. -/
def testConnPhase1 (apiUrl tok : String) : Step :=
  Step.call ⟨apiUrl, "GET", [("Authorization", "Bearer " ++ tok)], none⟩

/-- GET /api/test-connection, response phase (lines 297-311): a response
of any status yields 200 with success, status, statusText, url and
timestamp; a transport failure yields 500 with success false and the
message in the error field. -/
def testConnPhase2 (apiUrl ts : String) : FetchOutcome → HttpResponse
  | FetchOutcome.failure m =>
    ⟨500, Json.obj [("success", Json.bool false), ("error", Json.str m),
      ("url", Json.str apiUrl), ("timestamp", Json.str ts)]⟩
  | FetchOutcome.response r =>
    ⟨200, Json.obj [("success", Json.bool r.ok), ("status", Json.num r.status),
      ("statusText", Json.str r.statusText), ("url", Json.str apiUrl),
      ("timestamp", Json.str ts)]⟩

/-- The endpoint list embedded in the 404 handler (lines 320-328). -/
def availableEndpoints : List String :=
  ["GET /health", "GET /api/show/data", "GET /api/payment/:id",
   "POST /api/payment", "PUT /api/payment/:id", "DELETE /api/payment/:id",
   "GET /api/test-connection"]

/-- The routes actually registered on the app, in registration order
(lines 50, 63, 96, 139, 190, 244, 291). -/
def definedRoutes : List String :=
  ["GET /health", "GET /api/show/data", "GET /api/show/data/payment/:id",
   "POST /api/payment", "PUT /api/payment/:id", "DELETE /api/payment/:id",
   "GET /api/test-connection"]

/-- The catch-all 404 handler (lines 315-330). -/
def notFoundHandler (path method : String) : HttpResponse :=
  ⟨404, Json.obj [("error", Json.str "Route not found"), ("path", Json.str path),
    ("method", Json.str method),
    ("availableEndpoints", Json.arr (availableEndpoints.map Json.str))]⟩

/-! Helper lemmas about the replacement functions. -/

/-- Dollar substitution is the identity on a replacement string free of
dollar signs. -/
theorem getSubst_no_dollar (pre pat post repl : List Char) (h : '$' ∉ repl) :
    getSubst pre pat post repl = repl := by
  induction repl with
  | nil => rfl
  | cons c rest ih =>
    have hc : c ≠ '$' := fun e => h (e ▸ List.mem_cons_self c rest)
    have hrest : '$' ∉ rest := fun hm => h (List.mem_cons_of_mem _ hm)
    rw [getSubst.eq_def]
    simp [hc, ih hrest]

/-- JavaScript replace agrees with plain literal first-occurrence
replacement whenever the replacement string contains no dollar sign. -/
theorem jsReplace_no_dollar (s pat repl : String) (h : '$' ∉ repl.data) :
    jsReplace s pat repl = literalReplaceFirst s pat repl := by
  unfold jsReplace literalReplaceFirst jsReplaceL literalReplaceFirstL
  cases hf : findSplit s.data pat.data with
  | none => rfl
  | some pp =>
    obtain ⟨pre, post⟩ := pp
    simp [getSubst_no_dollar _ _ _ _ h]

/-- JavaScript replace with the empty replacement string removes the
first occurrence of the pattern. -/
theorem jsReplace_empty (s pat : String) :
    jsReplace s pat "" = jsRemoveFirst s pat := by
  unfold jsReplace jsRemoveFirst jsReplaceL removeFirstL
  cases hf : findSplit s.data pat.data with
  | none => rfl
  | some pp =>
    obtain ⟨pre, post⟩ := pp
    simp [getSubst]

/-! Claim theorems. -/

/-- C1 counterexample: a template containing the placeholder with no
preceding path separator is returned unchanged by the Create URL
resolution, so the resolved URL still contains the unresolved
placeholder, contradicting the claim that it never does. -/
theorem create_placeholder_retained :
    createEndpoint "a{id}" = "a{id}" ∧
    jsIncludes (createEndpoint "a{id}") "{id}" = true := by
  exact ⟨by decide, by decide⟩

/-- C1 amended: the Create operation returns the template unchanged when
it does not contain the placeholder, and otherwise removes the first
occurrence of the substring slash-placeholder; when the placeholder is
present but never immediately preceded by a slash, the template is
returned unchanged and the placeholder remains unresolved. -/
theorem create_url_resolution (t : String) :
    createEndpoint t = if jsIncludes t "{id}" then jsRemoveFirst t "/{id}" else t := by
  unfold createEndpoint
  cases h : jsIncludes t "{id}" with
  | false => simp [h]
  | true => simp [h, jsReplace_empty]

/-- C2 counterexample: at identifier consisting of two dollar signs, the
resolved payment URL is not the template with the placeholder literally
replaced by the identifier, because JavaScript replace collapses the two
dollar signs into one. -/
theorem payment_url_dollar_counterexample :
    paymentUrl "/p/{id}" "$$" = "/p/$" ∧
    literalReplaceFirst "/p/{id}" "{id}" "$$" = "/p/$$" ∧
    paymentUrl "/p/{id}" "$$" ≠ literalReplaceFirst "/p/{id}" "{id}" "$$" := by
  exact ⟨by decide, by decide, by decide⟩

/-- C2 amended: for every identifier containing no dollar sign, the URL
resolved by FetchById, UpdateById and DeleteById equals the template with
the first occurrence of the placeholder replaced by the identifier and no
other part changed; identifiers containing dollar signs undergo the
dollar-substitution of JavaScript replace instead. -/
theorem payment_url_literal_replacement (t i : String) (h : '$' ∉ i.data) :
    paymentUrl t i = literalReplaceFirst t "{id}" i :=
  jsReplace_no_dollar t "{id}" i h

/-- C2 witness: the amended theorem at a concrete dollar-free identifier. -/
theorem payment_url_literal_replacement_witness :
    '$' ∉ ("42" : String).data ∧
    paymentUrl "/p/{id}" "42" = literalReplaceFirst "/p/{id}" "{id}" "42" :=
  ⟨by decide, payment_url_literal_replacement "/p/{id}" "42" (by decide)⟩

/-- C3 code evaluation: POST /api/payment with an empty request body is
not rejected, because express.json leaves req.body as the empty object,
which is truthy; the handler proceeds to the outbound POST with the
serialized empty object as body.  Only a genuinely falsy body (such as an
absent req.body) is rejected with 400 and no outbound call. -/
theorem create_empty_body_not_rejected :
    createPhase1 "/p/{id}" "T" (some (Json.obj [])) =
      Step.call ⟨"/p", "POST", authCT "T", some "\x7b\x7d"⟩ ∧
    createPhase1 "/p/{id}" "T" none = Step.respond ⟨400, dataRequired⟩ :=
  ⟨rfl, rfl⟩

/-- C4: on an upstream response with non-success status, every data and
payment handler relays that same status; the body of the two plain reads
carries error, status and statusText and no details field, while the
bodies of the three writes additionally carry a details field holding the
upstream body read as text. -/
theorem upstream_error_relayed (i : String) (r : FetchResponse) (h : r.ok = false) :
    showDataPhase2 (FetchOutcome.response r) =
      ⟨r.status, upstreamErrorBody "Failed to fetch external API" r⟩ ∧
    showPaymentPhase2 (FetchOutcome.response r) =
      ⟨r.status, upstreamErrorBody "Failed to fetch payment data" r⟩ ∧
    createPhase2 (FetchOutcome.response r) =
      ⟨r.status, upstreamErrorBodyDetails "Failed to create payment" r⟩ ∧
    updatePhase2 (FetchOutcome.response r) =
      ⟨r.status, upstreamErrorBodyDetails "Failed to update payment" r⟩ ∧
    deletePhase2 i (FetchOutcome.response r) =
      ⟨r.status, upstreamErrorBodyDetails "Failed to delete payment" r⟩ ∧
    (∀ m, Json.getField (upstreamErrorBody m r) "error" = some (Json.str m)) ∧
    (∀ m, Json.getField (upstreamErrorBody m r) "status" = some (Json.num r.status)) ∧
    (∀ m, Json.getField (upstreamErrorBody m r) "details" = none) ∧
    (∀ m, Json.getField (upstreamErrorBodyDetails m r) "error" = some (Json.str m)) ∧
    (∀ m, Json.getField (upstreamErrorBodyDetails m r) "status" = some (Json.num r.status)) ∧
    (∀ m, Json.getField (upstreamErrorBodyDetails m r) "details" = some (Json.str r.bodyText)) := by
  refine ⟨?_, ?_, ?_, ?_, ?_, fun m => rfl, fun m => rfl, fun m => rfl,
    fun m => rfl, fun m => rfl, fun m => rfl⟩ <;>
    simp [showDataPhase2, showPaymentPhase2, createPhase2, updatePhase2, deletePhase2, h]

/-- C4 witness: a concrete 404 upstream response through the collection
read handler. -/
theorem upstream_error_relayed_witness :
    (FetchResponse.mk 404 "Not Found" "oops" (Except.error "x")).ok = false ∧
    showDataPhase2 (FetchOutcome.response ⟨404, "Not Found", "oops", Except.error "x"⟩) =
      ⟨404, upstreamErrorBody "Failed to fetch external API"
        ⟨404, "Not Found", "oops", Except.error "x"⟩⟩ :=
  ⟨by decide,
    (upstream_error_relayed "7" ⟨404, "Not Found", "oops", Except.error "x"⟩ (by decide)).1⟩

/-- C5: on upstream success, DeleteById responds 200 with the synthesized
body carrying the fixed message and the identifier, for every upstream
response content. -/
theorem delete_success_synthesized (i : String) (r : FetchResponse) (h : r.ok = true) :
    deletePhase2 i (FetchOutcome.response r) =
      ⟨200, Json.obj [("message", Json.str "Payment deleted successfully"),
        ("id", Json.str i)]⟩ := by
  simp [deletePhase2, h]

/-- C5 witness: a concrete upstream success whose body is not even valid
JSON still yields the synthesized acknowledgement. -/
theorem delete_success_synthesized_witness :
    (FetchResponse.mk 204 "No Content" "garbage" (Except.error "parse")).ok = true ∧
    deletePhase2 "42" (FetchOutcome.response ⟨204, "No Content", "garbage", Except.error "parse"⟩) =
      ⟨200, Json.obj [("message", Json.str "Payment deleted successfully"),
        ("id", Json.str "42")]⟩ :=
  ⟨by decide,
    delete_success_synthesized "42" ⟨204, "No Content", "garbage", Except.error "parse"⟩ (by decide)⟩

/-- C6 counterexample: the test-connection handler is a forwarded call,
and on a transport error it returns 500 with the underlying message in
the error field and no message field at all, contradicting the claim that
every forwarded call surfaces a message field. -/
theorem test_connection_transport_no_message_field :
    (testConnPhase2 "U" "TS" (FetchOutcome.failure "ECONNREFUSED")).status = 500 ∧
    Json.getField (testConnPhase2 "U" "TS" (FetchOutcome.failure "ECONNREFUSED")).body
      "message" = none ∧
    Json.getField (testConnPhase2 "U" "TS" (FetchOutcome.failure "ECONNREFUSED")).body
      "error" = some (Json.str "ECONNREFUSED") :=
  ⟨rfl, rfl, rfl⟩

/-- C6 amended: on a transport error, the five data and payment handlers
return 500 with the body carrying error and a message field holding the
underlying error message, while the test-connection handler returns 500
with the message in the error field of its success-flag body. -/
theorem transport_failure_maps_500 (m i u ts : String) :
    showDataPhase2 (FetchOutcome.failure m) = ⟨500, internalError m⟩ ∧
    showPaymentPhase2 (FetchOutcome.failure m) = ⟨500, internalError m⟩ ∧
    createPhase2 (FetchOutcome.failure m) = ⟨500, internalError m⟩ ∧
    updatePhase2 (FetchOutcome.failure m) = ⟨500, internalError m⟩ ∧
    deletePhase2 i (FetchOutcome.failure m) = ⟨500, internalError m⟩ ∧
    Json.getField (internalError m) "message" = some (Json.str m) ∧
    testConnPhase2 u ts (FetchOutcome.failure m) =
      ⟨500, Json.obj [("success", Json.bool false), ("error", Json.str m),
        ("url", Json.str u), ("timestamp", Json.str ts)]⟩ :=
  ⟨rfl, rfl, rfl, rfl, rfl, rfl, rfl⟩

/-- C7 counterexample: an upstream success with status 201 through the
collection read handler is answered with status 200, not the upstream
status, because res.json responds with the default status. -/
theorem success_status_not_preserved :
    showDataPhase2 (FetchOutcome.response ⟨201, "Created", "[]", Except.ok (Json.arr [])⟩) =
      ⟨200, Json.arr []⟩ ∧
    (showDataPhase2 (FetchOutcome.response
      ⟨201, "Created", "[]", Except.ok (Json.arr [])⟩)).status ≠ 201 :=
  ⟨rfl, by decide⟩

/-- C7 amended: on an upstream success whose body parses as JSON,
FetchCollection, FetchById and UpdateById respond with status 200 and the
upstream JSON body; the upstream success status itself is not
preserved. -/
theorem success_relayed_as_200 (r : FetchResponse) (d : Json) (h1 : r.ok = true)
    (h2 : r.jsonResult = Except.ok d) :
    showDataPhase2 (FetchOutcome.response r) = ⟨200, d⟩ ∧
    showPaymentPhase2 (FetchOutcome.response r) = ⟨200, d⟩ ∧
    updatePhase2 (FetchOutcome.response r) = ⟨200, d⟩ := by
  refine ⟨?_, ?_, ?_⟩ <;>
    simp [showDataPhase2, showPaymentPhase2, updatePhase2, h1, h2]

/-- C7 witness: a 201 upstream success through the update handler. -/
theorem success_relayed_as_200_witness :
    (FetchResponse.mk 201 "Created" "[]" (Except.ok (Json.arr []))).ok = true ∧
    updatePhase2 (FetchOutcome.response ⟨201, "Created", "[]", Except.ok (Json.arr [])⟩) =
      ⟨200, Json.arr []⟩ :=
  ⟨by decide,
    (success_relayed_as_200 ⟨201, "Created", "[]", Except.ok (Json.arr [])⟩
      (Json.arr []) (by decide) rfl).2.2⟩

/-- C8 code evaluation: the 404 handler does return status 404 with
error, path, method and availableEndpoints fields, but the advertised
endpoint list is not the list of defined routes: it omits the registered
route GET /api/show/data/payment/:id and instead advertises
GET /api/payment/:id, which is not registered. -/
theorem available_endpoints_mismatch :
    (notFoundHandler "/nope" "GET").status = 404 ∧
    Json.getField (notFoundHandler "/nope" "GET").body "error" =
      some (Json.str "Route not found") ∧
    Json.getField (notFoundHandler "/nope" "GET").body "path" = some (Json.str "/nope") ∧
    Json.getField (notFoundHandler "/nope" "GET").body "method" = some (Json.str "GET") ∧
    Json.getField (notFoundHandler "/nope" "GET").body "availableEndpoints" =
      some (Json.arr (availableEndpoints.map Json.str)) ∧
    "GET /api/show/data/payment/:id" ∈ definedRoutes ∧
    "GET /api/show/data/payment/:id" ∉ availableEndpoints ∧
    "GET /api/payment/:id" ∈ availableEndpoints ∧
    "GET /api/payment/:id" ∉ definedRoutes :=
  ⟨rfl, rfl, rfl, rfl, rfl, by decide, by decide, by decide, by decide⟩

/-- C9: every outbound call of every handler carries the Authorization
bearer header; the two body-carrying calls also carry the JSON
content-type and the payload serialized as JSON, while the GET and DELETE
calls send no body. -/
theorem outbound_call_shapes (tok urlT tmpl : String) (i : String) (j : Json)
    (hi : i ≠ "") (hj : j.truthy = true) :
    showDataPhase1 urlT tok = Step.call ⟨urlT, "GET", authCT tok, none⟩ ∧
    showPaymentPhase1 tmpl tok (some i) =
      Step.call ⟨paymentUrl tmpl i, "GET", authCT tok, none⟩ ∧
    createPhase1 tmpl tok (some j) =
      Step.call ⟨createEndpoint tmpl, "POST", authCT tok, some (Json.stringify j)⟩ ∧
    updatePhase1 tmpl tok (some i) (some j) =
      Step.call ⟨paymentUrl tmpl i, "PUT", authCT tok, some (Json.stringify j)⟩ ∧
    deletePhase1 tmpl tok (some i) =
      Step.call ⟨paymentUrl tmpl i, "DELETE", authCT tok, none⟩ ∧
    testConnPhase1 urlT tok =
      Step.call ⟨urlT, "GET", [("Authorization", "Bearer " ++ tok)], none⟩ := by
  refine ⟨rfl, ?_, ?_, ?_, ?_, rfl⟩ <;>
    simp [showPaymentPhase1, createPhase1, updatePhase1, deletePhase1, hi, hj]

/-- C9 witness: the create call at a concrete template, token and
payload. -/
theorem outbound_call_shapes_witness :
    ("7" : String) ≠ "" ∧ (Json.obj []).truthy = true ∧
    createPhase1 "/p/{id}" "T" (some (Json.obj [])) =
      Step.call ⟨createEndpoint "/p/{id}", "POST", authCT "T",
        some (Json.stringify (Json.obj []))⟩ :=
  ⟨by decide, rfl,
    (outbound_call_shapes "T" "U" "/p/{id}" "7" (Json.obj []) (by decide) rfl).2.2.1⟩

/-- C10 counterexample: DeleteById with an upstream success whose body is
not valid JSON responds 200 with the synthesized acknowledgement, not 500,
because the delete handler never parses the upstream body. -/
theorem delete_ignores_invalid_json :
    deletePhase2 "42" (FetchOutcome.response
      ⟨200, "OK", "not json", Except.error "Unexpected token"⟩) =
      ⟨200, Json.obj [("message", Json.str "Payment deleted successfully"),
        ("id", Json.str "42")]⟩ ∧
    (deletePhase2 "42" (FetchOutcome.response
      ⟨200, "OK", "not json", Except.error "Unexpected token"⟩)).status ≠ 500 :=
  ⟨rfl, by decide⟩

/-- C10 amended: on an upstream success whose body fails to parse as
JSON, the four body-parsing handlers (collection read, read by id,
create, update) respond 500 with error and the parse error message,
while DeleteById never reads the success body and still responds 200 with
its synthesized acknowledgement. -/
theorem parse_failure_maps_500 (r : FetchResponse) (m i : String) (h1 : r.ok = true)
    (h2 : r.jsonResult = Except.error m) :
    showDataPhase2 (FetchOutcome.response r) = ⟨500, internalError m⟩ ∧
    showPaymentPhase2 (FetchOutcome.response r) = ⟨500, internalError m⟩ ∧
    createPhase2 (FetchOutcome.response r) = ⟨500, internalError m⟩ ∧
    updatePhase2 (FetchOutcome.response r) = ⟨500, internalError m⟩ ∧
    deletePhase2 i (FetchOutcome.response r) =
      ⟨200, Json.obj [("message", Json.str "Payment deleted successfully"),
        ("id", Json.str i)]⟩ := by
  refine ⟨?_, ?_, ?_, ?_, ?_⟩ <;>
    simp [showDataPhase2, showPaymentPhase2, createPhase2, updatePhase2, deletePhase2, h1, h2]

/-- C10 witness: a concrete invalid-JSON success body through the
collection read handler. -/
theorem parse_failure_maps_500_witness :
    (FetchResponse.mk 200 "OK" "not json" (Except.error "Unexpected token")).ok = true ∧
    showDataPhase2 (FetchOutcome.response
      ⟨200, "OK", "not json", Except.error "Unexpected token"⟩) =
      ⟨500, internalError "Unexpected token"⟩ :=
  ⟨by decide,
    (parse_failure_maps_500 ⟨200, "OK", "not json", Except.error "Unexpected token"⟩
      "Unexpected token" "42" (by decide) rfl).1⟩

end Proxy
